import Mathlib

/-!
Shallow embedding of `HARK/ConsumptionSaving/ConsPortfolioFrameModel.py`
(class `PortfolioConsumerFrameType`) and verification of properties of its
frame transitions.

Modelling conventions:
* Per-agent numpy vectors of length `AgentCount` become functions `Fin n → ℚ`.
* A numpy float vector that may hold NaN entries (the `np.zeros(n) + np.nan`
  initialization pattern in `transition_ShareNow` / `transition_cNrmNow`)
  becomes `Fin n → Option ℚ`, with `none` standing for NaN.
* The externally solved policy functions `solution[t].ShareFuncAdj`,
  `ShareFuncFxd`, `cFuncAdj`, `cFuncFxd` are opaque parameters gathered in a
  `Solution` record.  The `Adj` functions receive real (non-NaN) market
  resources and return reals; the `Fxd` functions additionally receive an
  entry of the possibly-NaN share array, hence `Option ℚ`, and may propagate
  NaN, hence return `Option ℚ`.
* The fallible float division `RfreeNow / PermShk` is embedded with an
  explicit zero-divisor check returning `Option`.
-/

namespace ConsPortfolioFrame

/-- numpy masked scalar assignment `a[mask] = v` on a per-agent vector. -/
def maskedSet {n : ℕ} (a : Fin n → ℚ) (mask : Fin n → Bool) (v : ℚ) : Fin n → ℚ :=
  fun i => if mask i then v else a i

/-- `RfreeNow = self.Rboro * np.ones(self.AgentCount); RfreeNow[self.state_prev['aNrm'] > 0] = self.Rsave`
(source lines 100-101).  `aNrm` is the previous-period end-of-period asset
vector: it is both the frame input `aNrm` and `self.state_prev['aNrm']`. -/
def RfreeNow {n : ℕ} (Rboro Rsave : ℚ) (aNrm : Fin n → ℚ) : Fin n → ℚ :=
  maskedSet (fun _ => Rboro) (fun i => decide (0 < aNrm i)) Rsave

/-- Joint output record of the income/assets `transition` (source line 112):
`return pLvlNow, PlvlAggNow, bNrmNow, mNrmNow`. -/
structure TransitionOut (n : ℕ) where
  pLvlNow : Fin n → ℚ
  PlvlAggNow : ℚ
  bNrmNow : Fin n → ℚ
  mNrmNow : Fin n → ℚ

/-- The income/assets `transition(pLvl, aNrm, Rfree, PlvlAgg, PermShk, TranShk)`
(source lines 95-112).  `Rboro`, `Rsave`, `PermShkAggNow` are the object
attributes the body reads.  The positional input `Rfree` is accepted but,
as in the source, never used (the body recomputes `RfreeNow`).  The division
`ReffNow = RfreeNow / PermShk` (line 108) has no zero guard in the source;
it is embedded fallibly: the result is `none` when some `PermShk` entry is
zero, and `some` of the four outputs otherwise. -/
def transition {n : ℕ} (Rboro Rsave PermShkAggNow : ℚ)
    (pLvl aNrm Rfree : Fin n → ℚ) (PlvlAgg : ℚ)
    (PermShk TranShk : Fin n → ℚ) : Option (TransitionOut n) :=
  let RfreeVec := RfreeNow Rboro Rsave aNrm
  let pLvlNow := fun i => pLvl i * PermShk i
  let PlvlAggNow := PlvlAgg * PermShkAggNow
  if _h : ∀ i, PermShk i ≠ 0 then
    let ReffNow := fun i => RfreeVec i / PermShk i
    let bNrmNow := fun i => ReffNow i * aNrm i
    let mNrmNow := fun i => bNrmNow i + TranShk i
    some ⟨pLvlNow, PlvlAggNow, bNrmNow, mNrmNow⟩
  else none

/-- Aggregate permanent-income update, the single line
`PlvlAggNow = PlvlAgg * self.PermShkAggNow` (source line 106),
iterated over periods starting from `aggregate_init_values` (source
lines 64-66 set `PlvlAgg` to the scalar 1.0, i.e. a length-1 quantity). -/
def PlvlAggSeq (PlvlAggInit : ℚ) (PermShkAggSeq : ℕ → ℚ) : ℕ → ℚ
  | 0 => PlvlAggInit
  | t + 1 => PlvlAggSeq PlvlAggInit PermShkAggSeq t * PermShkAggSeq t

/-- The per-period, per-age solution object: the four externally supplied
policy functions read by `transition_ShareNow` and `transition_cNrmNow`. -/
structure Solution where
  ShareFuncAdj : ℚ → ℚ
  ShareFuncFxd : ℚ → Option ℚ → Option ℚ
  cFuncAdj : ℚ → ℚ
  cFuncFxd : ℚ → Option ℚ → Option ℚ

/-- `these = t == self.t_cycle` (source lines 122, 150): the age-`t` cohort mask. -/
def these {n : ℕ} (t_cycle : Fin n → ℕ) (t : ℕ) (i : Fin n) : Bool :=
  decide (t_cycle i = t)

/-- `those = np.logical_and(these, Adjust)` (source lines 125, 153):
the age-`t` agents who can adjust their portfolio share. -/
def thoseAdj {n : ℕ} (t_cycle : Fin n → ℕ) (Adjust : Fin n → Bool) (t : ℕ) (i : Fin n) : Bool :=
  these t_cycle t i && Adjust i

/-- `those = np.logical_and(these, np.logical_not(Adjust))` (source lines
130-132, 157-159): the age-`t` agents who cannot adjust. -/
def thoseFxd {n : ℕ} (t_cycle : Fin n → ℕ) (Adjust : Fin n → Bool) (t : ℕ) (i : Fin n) : Bool :=
  these t_cycle t i && !(Adjust i)

/-- One iteration `t` of the loop in `transition_ShareNow` (source lines
121-135): first the masked write
`ShareNow[thoseAdj] = solution[t].ShareFuncAdj(mNrm[thoseAdj])`,
then the masked write
`ShareNow[thoseFxd] = solution[t].ShareFuncFxd(mNrm[thoseFxd], ShareNow[thoseFxd])`,
whose second argument is read from the array state after the first write. -/
def shareStep {n : ℕ} (sol : ℕ → Solution) (t_cycle : Fin n → ℕ) (Adjust : Fin n → Bool)
    (mNrm : Fin n → ℚ) (t : ℕ) (ShareNow : Fin n → Option ℚ) : Fin n → Option ℚ :=
  let S1 : Fin n → Option ℚ := fun i =>
    if thoseAdj t_cycle Adjust t i then some ((sol t).ShareFuncAdj (mNrm i)) else ShareNow i
  fun i =>
    if thoseFxd t_cycle Adjust t i then (sol t).ShareFuncFxd (mNrm i) (S1 i) else S1 i

/-- The loop `for t in range(T_cycle)` of `transition_ShareNow`, run on the
NaN-initialized array `ShareNow = np.zeros(self.AgentCount) + np.nan`
(source line 118); `shareLoop … T` is the array after iterations `0 … T-1`. -/
def shareLoop {n : ℕ} (sol : ℕ → Solution) (t_cycle : Fin n → ℕ) (Adjust : Fin n → Bool)
    (mNrm : Fin n → ℚ) : ℕ → Fin n → Option ℚ
  | 0 => fun _ => none
  | t + 1 => shareStep sol t_cycle Adjust mNrm t (shareLoop sol t_cycle Adjust mNrm t)

/-- `transition_ShareNow` (source lines 114-139).  Its declared frame inputs
are `None`; the values it actually reads are `self.t_cycle`, the `Adjust`
shock, market resources `mNrm` (via `self.state_now` and `context`) and the
per-age `solution`.  Note that no previous-period `Share` value is among its
parameters: the source never reads one. -/
def transition_ShareNow {n : ℕ} (T_cycle : ℕ) (sol : ℕ → Solution) (t_cycle : Fin n → ℕ)
    (Adjust : Fin n → Bool) (mNrm : Fin n → ℚ) : Fin n → Option ℚ :=
  shareLoop sol t_cycle Adjust mNrm T_cycle

/-- One iteration `t` of the loop in `transition_cNrmNow` (source lines
149-162): `cNrmNow[thoseAdj] = solution[t].cFuncAdj(mNrm[thoseAdj])`, then
`cNrmNow[thoseFxd] = solution[t].cFuncFxd(mNrm[thoseFxd], ShareNow[thoseFxd])`
where `ShareNow = self.controls["Share"]` is the (possibly NaN-bearing) share
array fixed before the loop (source line 146). -/
def cNrmStep {n : ℕ} (sol : ℕ → Solution) (t_cycle : Fin n → ℕ) (Adjust : Fin n → Bool)
    (mNrm : Fin n → ℚ) (Share : Fin n → Option ℚ) (t : ℕ)
    (cNrmNow : Fin n → Option ℚ) : Fin n → Option ℚ :=
  let C1 : Fin n → Option ℚ := fun i =>
    if thoseAdj t_cycle Adjust t i then some ((sol t).cFuncAdj (mNrm i)) else cNrmNow i
  fun i =>
    if thoseFxd t_cycle Adjust t i then (sol t).cFuncFxd (mNrm i) (Share i) else C1 i

/-- The loop `for t in range(T_cycle)` of `transition_cNrmNow`, run on the
NaN-initialized array `cNrmNow = np.zeros(self.AgentCount) + np.nan`
(source line 145). -/
def cNrmLoop {n : ℕ} (sol : ℕ → Solution) (t_cycle : Fin n → ℕ) (Adjust : Fin n → Bool)
    (mNrm : Fin n → ℚ) (Share : Fin n → Option ℚ) : ℕ → Fin n → Option ℚ
  | 0 => fun _ => none
  | t + 1 => cNrmStep sol t_cycle Adjust mNrm Share t (cNrmLoop sol t_cycle Adjust mNrm Share t)

/-- `transition_cNrmNow` (source lines 141-168). -/
def transition_cNrmNow {n : ℕ} (T_cycle : ℕ) (sol : ℕ → Solution) (t_cycle : Fin n → ℕ)
    (Adjust : Fin n → Bool) (mNrm : Fin n → ℚ) (Share : Fin n → Option ℚ) : Fin n → Option ℚ :=
  cNrmLoop sol t_cycle Adjust mNrm Share T_cycle

/-- Declarative header of a `Frame(target, input, default=…, transition=…)`
entry of the `frames` list (source lines 171-214): the output variable
names, the declared input variable names (`none` embeds the Python `None`),
and the keys given birth defaults. -/
structure FrameDecl where
  target : List String
  inputs : Option (List String)
  defaultKeys : List String
deriving DecidableEq

/-- `Frame(('Risky'), None, transition=IndexDistribution(Lognormal.from_mean_std, …))`
(source lines 173-183). -/
def riskyFrameDecl : FrameDecl := ⟨["Risky"], none, []⟩

/-- `Frame(('Adjust'), None, default={'Adjust': False}, transition=IndexDistribution(Bernoulli, …))`
(source lines 184-192). -/
def adjustFrameDecl : FrameDecl := ⟨["Adjust"], none, ["Adjust"]⟩

/-- `Frame(('pLvl','PlvlAgg','bNrm','mNrm'), ('pLvl','aNrm','Rfree','PlvlAgg','PermShk','TranShk'), …)`
(source lines 194-199). -/
def incomeFrameDecl : FrameDecl :=
  ⟨["pLvl", "PlvlAgg", "bNrm", "mNrm"],
   some ["pLvl", "aNrm", "Rfree", "PlvlAgg", "PermShk", "TranShk"], ["pLvl"]⟩

/-- `Frame(('Share'), None, default={'Share': 0}, transition=transition_ShareNow)`
(source lines 200-204). -/
def shareFrameDecl : FrameDecl := ⟨["Share"], none, ["Share"]⟩

/-- `Frame(('cNrm'), None, transition=transition_cNrmNow)` (source lines 205-208). -/
def cNrmFrameDecl : FrameDecl := ⟨["cNrm"], none, []⟩

/-- `Frame(('aNrm','aLvl'), None, default={'aNrm': birth_aNrmNow}, …)`
(source lines 209-213). -/
def aNrmFrameDecl : FrameDecl := ⟨["aNrm", "aLvl"], none, ["aNrm"]⟩

/-- Where the `seed` argument of a distribution construction comes from:
`fromRNGRandint` embeds `seed=self.RNG.randint(0, 2 ** 31 - 1)` — a seed
derived from the single owning generator `self.RNG`; `absent` embeds a
construction with no `seed` argument at all (in the source the seed line
is commented out with `TODO: Seed logic`, lines 181 and 190). -/
inductive SeedSource where
  | fromRNGRandint
  | absent
deriving DecidableEq

/-- A distribution construction made by a shock frame's transition:
the distribution family and the seed provenance. -/
structure DistCall where
  family : String
  seed : SeedSource
deriving DecidableEq

/-- The `IndexDistribution(Lognormal.from_mean_std, {'mean': …, 'std': …})`
built for the `Risky` frame (source lines 175-182): no `seed` argument is
passed; the seed line is a `TODO` comment. -/
def riskyDistCall : DistCall := ⟨"Lognormal.from_mean_std", SeedSource.absent⟩

/-- The `IndexDistribution(Bernoulli, {'p': …})` built for the `Adjust`
frame (source lines 187-191): no `seed` argument is passed; the seed line
is a `TODO` comment. -/
def adjustDistCall : DistCall := ⟨"Bernoulli", SeedSource.absent⟩

/-- A distribution call draws reproducibly from the owning generator when
its seed is derived from `self.RNG`. -/
def drawsFromOwnerGenerator (s : SeedSource) : Prop := s = SeedSource.fromRNGRandint

instance (s : SeedSource) : Decidable (drawsFromOwnerGenerator s) := by
  unfold drawsFromOwnerGenerator; infer_instance

/-- The lognormal draw made by a birth provider: distribution parameters
`mu`, `sigma`, the seed provenance, and the number of values drawn. -/
structure BirthLognormalCall where
  mu : ℝ
  sigma : ℝ
  seed : SeedSource
  count : ℕ

/-- `birth_aNrmNow(self, N)` (source lines 69-77): draws `N` values from
`Lognormal(mu=self.aNrmInitMean, sigma=self.aNrmInitStd, seed=self.RNG.randint(0, 2**31-1))`. -/
def birth_aNrmNow (aNrmInitMean aNrmInitStd : ℝ) (N : ℕ) : BirthLognormalCall :=
  ⟨aNrmInitMean, aNrmInitStd, SeedSource.fromRNGRandint, N⟩

/-- `birth_pLvlNow(self, N)` (source lines 80-92): computes
`pLvlInitMeanNow = self.pLvlInitMean + np.log(self.state_now["PlvlAgg"])`
and draws `N` values from
`Lognormal(pLvlInitMeanNow, self.pLvlInitStd, seed=self.RNG.randint(0, 2**31-1))`.
`PlvlAgg` is the aggregate permanent-income level at the moment of birth.
(`np.log` is the one transcendental in the source, hence `noncomputable`.) -/
noncomputable def birth_pLvlNow (pLvlInitMean pLvlInitStd PlvlAgg : ℝ) (N : ℕ) : BirthLognormalCall :=
  ⟨pLvlInitMean + Real.log PlvlAgg, pLvlInitStd, SeedSource.fromRNGRandint, N⟩

/-! Helper lemmas about the share / consumption loops. -/

/-- An agent whose `t_cycle` is at least `T` is never selected by any loop
iteration `t < T`, so its `ShareNow` entry keeps its NaN initialization. -/
lemma shareLoop_of_ge {n : ℕ} (sol : ℕ → Solution) (t_cycle : Fin n → ℕ)
    (Adjust : Fin n → Bool) (mNrm : Fin n → ℚ) (T : ℕ) (i : Fin n)
    (h : T ≤ t_cycle i) :
    shareLoop sol t_cycle Adjust mNrm T i = none := by
  induction T with
  | zero => rfl
  | succ t ih =>
    have ht : ¬ (t_cycle i = t) := by omega
    simp [shareLoop, shareStep, thoseAdj, thoseFxd, these, ht, ih (by omega)]

/-- Same for the `cNrmNow` loop. -/
lemma cNrmLoop_of_ge {n : ℕ} (sol : ℕ → Solution) (t_cycle : Fin n → ℕ)
    (Adjust : Fin n → Bool) (mNrm : Fin n → ℚ) (Share : Fin n → Option ℚ)
    (T : ℕ) (i : Fin n) (h : T ≤ t_cycle i) :
    cNrmLoop sol t_cycle Adjust mNrm Share T i = none := by
  induction T with
  | zero => rfl
  | succ t ih =>
    have ht : ¬ (t_cycle i = t) := by omega
    simp [cNrmLoop, cNrmStep, thoseAdj, thoseFxd, these, ht, ih (by omega)]

/-! Concrete fixtures used by witnesses and concrete-scenario theorems. -/

/-- A concrete solution: `ShareFuncAdj m = m / 2`, `cFuncAdj m = m`, and both
fixed-branch policy functions are the identity in their share argument —
the shape the solver's `IdentityFunction`-based fixed policies take, which
makes the value passed as the share argument observable in the output. -/
def solId : ℕ → Solution :=
  fun _ => { ShareFuncAdj := fun m => m / 2, ShareFuncFxd := fun _ s => s,
             cFuncAdj := fun m => m, cFuncFxd := fun _ s => s }

/-- One agent of age 0. -/
def tc1 : Fin 1 → ℕ := fun _ => 0

/-- One agent of age 5 (outside a horizon of length 2). -/
def tc5 : Fin 1 → ℕ := fun _ => 5

/-- One agent who can adjust. -/
def adjT : Fin 1 → Bool := fun _ => true

/-- One agent who cannot adjust. -/
def adjF : Fin 1 → Bool := fun _ => false

/-- Market resources 1 for the single agent. -/
def m1 : Fin 1 → ℚ := fun _ => 1

/-- Market resources 3 for the single agent. -/
def m3 : Fin 1 → ℚ := fun _ => 3

/-- A NaN share entry for the single agent. -/
def shN : Fin 1 → Option ℚ := fun _ => none

/-- A real (non-NaN) share entry 7 for the single agent. -/
def sh7 : Fin 1 → Option ℚ := fun _ => some 7

/-- Three agents, all of age 0. -/
def tc3 : Fin 3 → ℕ := fun _ => 0

/-- `Adjust = [True, False, True]` over three agents. -/
def adj101 : Fin 3 → Bool := fun i => decide (i.val ≠ 1)

/-- Market resources `[2, 3, 4]` over three agents. -/
def m234 : Fin 3 → ℚ := fun i => (i.val : ℚ) + 2

/-- Previous assets `[1, 0]` over two agents ( agent 0 a saver, agent 1 at
exactly zero). -/
def aPrev2 : Fin 2 → ℚ := fun i => if i.val = 0 then 1 else 0

/-- Constant vector 1 over two agents. -/
def ones2 : Fin 2 → ℚ := fun _ => 1

/-! Claim theorems. -/

/-- C1 (evaluation at the failing input): for an age-0 agent who cannot
adjust, with the solver's identity-in-share fixed policy
(`ShareFuncFxd m s = s`, so the output IS the second argument passed),
`transition_ShareNow` produces `none` (NaN): the second argument handed to
`ShareFuncFxd` is the freshly NaN-initialized `ShareNow` entry.  The
previous-period `Share` is not among the inputs of `transition_ShareNow`
at all, so the output can never reflect it; in particular it differs from
any realized previous share such as the birth default `0`. -/
theorem shareFuncFxd_receives_nan_not_previous_share :
    transition_ShareNow 1 solId tc1 adjF m1 0 = none
    ∧ (none : Option ℚ) ≠ some 0 := ⟨rfl, by decide⟩

/-- C2 (counterexample): the `Share` frame is declared with inputs `None`,
yet two runs of `transition_ShareNow` that can only differ in the
undeclared `Adjust` shock produce different outputs — the transition reads
variables outside its declared (empty) input set. -/
theorem share_frame_reads_undeclared :
    shareFrameDecl.inputs = none
    ∧ transition_ShareNow 1 solId tc1 adjT m1 0 ≠ transition_ShareNow 1 solId tc1 adjF m1 0 := by
  exact ⟨rfl, by decide⟩

/-- C2 (amended): the `Share` and `cNrm` frames are declared with inputs
`None`, but their transitions in fact read the `Adjust` shock, the market
resources `mNrm`, and (for `cNrm`) the `Share` control: each of the
displayed pairs of runs differs only in one of those undeclared variables
and yields different outputs. -/
theorem share_cNrm_transitions_read_beyond_declared :
    shareFrameDecl.inputs = none
    ∧ cNrmFrameDecl.inputs = none
    ∧ transition_ShareNow 1 solId tc1 adjT m1 0 ≠ transition_ShareNow 1 solId tc1 adjF m1 0
    ∧ transition_ShareNow 1 solId tc1 adjT m1 0 ≠ transition_ShareNow 1 solId tc1 adjT m3 0
    ∧ transition_cNrmNow 1 solId tc1 adjT m1 sh7 0 ≠ transition_cNrmNow 1 solId tc1 adjF m1 sh7 0
    ∧ transition_cNrmNow 1 solId tc1 adjT m1 sh7 0 ≠ transition_cNrmNow 1 solId tc1 adjT m3 sh7 0
    ∧ transition_cNrmNow 1 solId tc1 adjF m1 sh7 0 ≠ transition_cNrmNow 1 solId tc1 adjF m1 shN 0 := by
  refine ⟨rfl, rfl, by decide, ?_, ?_, ?_, by decide⟩
  · intro h
    have h' := Option.some.inj h
    norm_num [solId, m1, m3] at h'
  · intro h
    have h' := Option.some.inj h
    norm_num [solId, m1, sh7] at h'
  · intro h
    have h' := Option.some.inj h
    norm_num [solId, m1, m3] at h'

/-- C3: within each loop iteration `t`, the "can adjust" mask and the
"cannot adjust" mask are disjoint, their union is exactly the age-`t`
cohort mask `these`, and an age-`t` agent's entry is written by exactly one
branch: the adjust policy value when `Adjust` holds, the fixed policy value
otherwise — in both the share step and the consumption step. -/
theorem adjust_fixed_partition {n : ℕ} (sol : ℕ → Solution) (t_cycle : Fin n → ℕ)
    (Adjust : Fin n → Bool) (mNrm : Fin n → ℚ) (ShareNow cNrmNow Share : Fin n → Option ℚ)
    (t : ℕ) (i : Fin n) :
    (thoseAdj t_cycle Adjust t i && thoseFxd t_cycle Adjust t i) = false
    ∧ (thoseAdj t_cycle Adjust t i || thoseFxd t_cycle Adjust t i) = these t_cycle t i
    ∧ (these t_cycle t i = true →
        shareStep sol t_cycle Adjust mNrm t ShareNow i =
          if Adjust i then some ((sol t).ShareFuncAdj (mNrm i))
          else (sol t).ShareFuncFxd (mNrm i) (ShareNow i))
    ∧ (these t_cycle t i = true →
        cNrmStep sol t_cycle Adjust mNrm Share t cNrmNow i =
          if Adjust i then some ((sol t).cFuncAdj (mNrm i))
          else (sol t).cFuncFxd (mNrm i) (Share i)) := by
  refine ⟨?_, ?_, ?_, ?_⟩
  · cases hA : Adjust i <;> simp [thoseAdj, thoseFxd, hA]
  · cases hA : Adjust i <;> simp [thoseAdj, thoseFxd, hA]
  · intro h
    cases hA : Adjust i <;> simp [shareStep, thoseAdj, thoseFxd, h, hA]
  · intro h
    cases hA : Adjust i <;> simp [cNrmStep, thoseAdj, thoseFxd, h, hA]

/-- Witness for C3 at a concrete input: a single age-0 adjusting agent. -/
theorem adjust_fixed_partition_witness :
    these tc1 0 0 = true
    ∧ (shareStep solId tc1 adjT m1 0 shN 0 =
        if adjT 0 then some ((solId 0).ShareFuncAdj (m1 0))
        else (solId 0).ShareFuncFxd (m1 0) (shN 0))
    ∧ (cNrmStep solId tc1 adjT m1 sh7 0 shN 0 =
        if adjT 0 then some ((solId 0).cFuncAdj (m1 0))
        else (solId 0).cFuncFxd (m1 0) (sh7 0)) :=
  ⟨by decide,
   (adjust_fixed_partition solId tc1 adjT m1 shN shN sh7 0 0).2.2.1 (by decide),
   (adjust_fixed_partition solId tc1 adjT m1 sh7 shN sh7 0 0).2.2.2 (by decide)⟩

/-- C6 (evaluation at the failing input): three age-0 agents with
`Adjust = [True, False, True]`, `mNrm = [2, 3, 4]`, and the solver's
identity-in-share fixed policy.  Agents 1 and 3 (indices 0 and 2) do get
`ShareFuncAdj(mNrm)` as the claim states, but agent 2 (index 1) ends the
period with share NaN — `ShareFuncFxd` was fed the NaN-initialized entry —
not its birth-default share `0`. -/
theorem three_agent_scenario_share :
    transition_ShareNow 1 solId tc3 adj101 m234 0 = some ((solId 0).ShareFuncAdj (m234 0))
    ∧ transition_ShareNow 1 solId tc3 adj101 m234 2 = some ((solId 0).ShareFuncAdj (m234 2))
    ∧ transition_ShareNow 1 solId tc3 adj101 m234 1 = none
    ∧ (none : Option ℚ) ≠ some (0 : ℚ) := ⟨rfl, rfl, rfl, by decide⟩

/-- C9: `transition_ShareNow` and `transition_cNrmNow` initialize their
output vectors to NaN and write only entries of agents whose `t_cycle` lies
in `[0, T_cycle)`; an agent whose `t_cycle` is outside that range keeps a
NaN (`none`) entry in both outputs. -/
theorem share_cNrm_nan_outside_age_range {n : ℕ} (T_cycle : ℕ) (sol : ℕ → Solution)
    (t_cycle : Fin n → ℕ) (Adjust : Fin n → Bool) (mNrm : Fin n → ℚ)
    (Share : Fin n → Option ℚ) (i : Fin n) (h : T_cycle ≤ t_cycle i) :
    transition_ShareNow T_cycle sol t_cycle Adjust mNrm i = none
    ∧ transition_cNrmNow T_cycle sol t_cycle Adjust mNrm Share i = none :=
  ⟨shareLoop_of_ge sol t_cycle Adjust mNrm T_cycle i h,
   cNrmLoop_of_ge sol t_cycle Adjust mNrm Share T_cycle i h⟩

/-- Witness for C9: horizon 2, one agent of age 5. -/
theorem share_cNrm_nan_outside_age_range_witness :
    2 ≤ tc5 0
    ∧ transition_ShareNow 2 solId tc5 adjT m1 0 = none
    ∧ transition_cNrmNow 2 solId tc5 adjT m1 sh7 0 = none :=
  ⟨by decide,
   (share_cNrm_nan_outside_age_range 2 solId tc5 adjT m1 sh7 0 (by decide)).1,
   (share_cNrm_nan_outside_age_range 2 solId tc5 adjT m1 sh7 0 (by decide)).2⟩

/-- C4 (counterexample): the `Risky` and `Adjust` shock frames construct
their `IndexDistribution`s with no `seed` argument at all — in the source
the owner-derived seed is a commented-out `TODO` — so they do not draw from
seeds derived deterministically from the single owning generator. -/
theorem risky_adjust_frames_not_owner_seeded :
    ¬ drawsFromOwnerGenerator riskyDistCall.seed
    ∧ ¬ drawsFromOwnerGenerator adjustDistCall.seed := by decide

/-- C4 (amended): the two birth providers do derive their seeds from the
single owning generator (`seed = self.RNG.randint(0, 2**31-1)`), while the
`Risky` and `Adjust` shock frames pass no owner-derived seed (the seed line
is a `TODO` comment in the source). -/
theorem seed_derivation_status (aMean aStd pMean pStd PlvlAgg : ℝ) (N : ℕ) :
    drawsFromOwnerGenerator (birth_aNrmNow aMean aStd N).seed
    ∧ drawsFromOwnerGenerator (birth_pLvlNow pMean pStd PlvlAgg N).seed
    ∧ riskyDistCall.seed = SeedSource.absent
    ∧ adjustDistCall.seed = SeedSource.absent :=
  ⟨rfl, rfl, rfl, rfl⟩

/-- C5: the aggregate permanent-income level is a scalar (length-1) state
evolving multiplicatively — `PlvlAggSeq` at `t+1` equals its value at `t`
times the period-`t` aggregate shock; with the shock identically 1 the
aggregate is constant; and the income/assets `transition` computes exactly
this one-step update `PlvlAggNow = PlvlAgg * PermShkAggNow` whenever it
succeeds. -/
theorem plvlAgg_multiplicative (PlvlAggInit : ℚ) (shk : ℕ → ℚ) (t : ℕ) :
    PlvlAggSeq PlvlAggInit shk (t + 1) = PlvlAggSeq PlvlAggInit shk t * shk t
    ∧ ((∀ s, shk s = 1) → PlvlAggSeq PlvlAggInit shk t = PlvlAggInit)
    ∧ (∀ {n : ℕ} (Rboro Rsave PermShkAggNow : ℚ) (pLvl aNrm Rfree : Fin n → ℚ)
        (PlvlAgg : ℚ) (PermShk TranShk : Fin n → ℚ),
        (∀ i, PermShk i ≠ 0) →
        (transition Rboro Rsave PermShkAggNow pLvl aNrm Rfree PlvlAgg PermShk TranShk).map
            TransitionOut.PlvlAggNow = some (PlvlAgg * PermShkAggNow)) := by
  refine ⟨rfl, ?_, ?_⟩
  · intro h
    induction t with
    | zero => rfl
    | succ s ih => rw [PlvlAggSeq, ih, h s, mul_one]
  · intro n Rboro Rsave PermShkAggNow pLvl aNrm Rfree PlvlAgg PermShk TranShk h
    unfold transition
    rw [dif_pos h]
    rfl

/-- Witness for C5: starting aggregate 2, shock identically 1, three
periods — the aggregate stays 2; and a concrete successful one-agent
transition multiplies the aggregate 2 by the aggregate shock 5. -/
theorem plvlAgg_multiplicative_witness :
    PlvlAggSeq 2 (fun _ => 1) 3 = 2
    ∧ (transition (103/100) (101/100) 5 m1 m1 m1 2 m1 m1).map TransitionOut.PlvlAggNow
        = some (2 * 5) :=
  ⟨(plvlAgg_multiplicative 2 (fun _ => 1) 3).2.1 (fun _ => rfl),
   (plvlAgg_multiplicative 2 (fun _ => 1) 3).2.2 (103/100) (101/100) 5 m1 m1 m1 2 m1 m1
     (by decide)⟩

/-- C7: the `pLvl` birth provider draws `N` values from a lognormal whose
log-mean is `pLvlInitMean + log(PlvlAgg)` — `PlvlAgg` read at the moment of
birth — with standard deviation `pLvlInitStd` and a seed from the owning
generator; and the mean genuinely depends on the aggregate state: distinct
positive aggregate levels give distinct means. -/
theorem birth_pLvl_aggregate_mean (pLvlInitMean pLvlInitStd PlvlAgg : ℝ) (N : ℕ) :
    (birth_pLvlNow pLvlInitMean pLvlInitStd PlvlAgg N).mu = pLvlInitMean + Real.log PlvlAgg
    ∧ (birth_pLvlNow pLvlInitMean pLvlInitStd PlvlAgg N).sigma = pLvlInitStd
    ∧ (birth_pLvlNow pLvlInitMean pLvlInitStd PlvlAgg N).count = N
    ∧ (birth_pLvlNow pLvlInitMean pLvlInitStd PlvlAgg N).seed = SeedSource.fromRNGRandint
    ∧ (∀ a b : ℝ, 0 < a → 0 < b → a ≠ b →
        (birth_pLvlNow pLvlInitMean pLvlInitStd a N).mu
          ≠ (birth_pLvlNow pLvlInitMean pLvlInitStd b N).mu) := by
  refine ⟨rfl, rfl, rfl, rfl, ?_⟩
  intro a b ha hb hab hmu
  exact hab (Real.log_injOn_pos (Set.mem_Ioi.mpr ha) (Set.mem_Ioi.mpr hb)
    (add_left_cancel hmu))

/-- Witness for C7: aggregate levels 1 and 2 give different birth means. -/
theorem birth_pLvl_aggregate_mean_witness :
    (0 : ℝ) < 1 ∧ (0 : ℝ) < 2 ∧ (1 : ℝ) ≠ 2
    ∧ (birth_pLvlNow 0 1 1 5).mu ≠ (birth_pLvlNow 0 1 2 5).mu :=
  ⟨by norm_num, by norm_num, by norm_num,
   (birth_pLvl_aggregate_mean 0 1 1 5).2.2.2.2 1 2 (by norm_num) (by norm_num) (by norm_num)⟩

/-- C8: in the income/assets transition, the per-agent risk-free factor is
`Rsave` exactly for agents with strictly positive previous `aNrm` and
`Rboro` otherwise — including at `aNrm = 0` — and when the transition
succeeds its `bNrm` output is this factor over `PermShk` times previous
`aNrm`, so the selection is the one the transition actually uses. -/
theorem rfree_selection {n : ℕ} (Rboro Rsave PermShkAggNow : ℚ)
    (pLvl aNrm Rfree : Fin n → ℚ) (PlvlAgg : ℚ) (PermShk TranShk : Fin n → ℚ) (i : Fin n) :
    (0 < aNrm i → RfreeNow Rboro Rsave aNrm i = Rsave)
    ∧ (aNrm i ≤ 0 → RfreeNow Rboro Rsave aNrm i = Rboro)
    ∧ (aNrm i = 0 → RfreeNow Rboro Rsave aNrm i = Rboro)
    ∧ (∀ out, transition Rboro Rsave PermShkAggNow pLvl aNrm Rfree PlvlAgg PermShk TranShk
          = some out →
        out.bNrmNow i = RfreeNow Rboro Rsave aNrm i / PermShk i * aNrm i) := by
  refine ⟨?_, ?_, ?_, ?_⟩
  · intro h
    simp [RfreeNow, maskedSet, h]
  · intro h
    simp [RfreeNow, maskedSet, not_lt.mpr h]
  · intro h
    simp [RfreeNow, maskedSet, h]
  · intro out hout
    unfold transition at hout
    by_cases h : ∀ j, PermShk j ≠ 0
    · rw [dif_pos h] at hout
      cases hout
      rfl
    · rw [dif_neg h] at hout
      exact absurd hout (by simp)

/-- Witness for C8: two agents with previous assets `[1, 0]`: the saver
gets `Rsave = 101/100`, the agent at exactly zero gets `Rboro = 103/100`. -/
theorem rfree_selection_witness :
    (0 : ℚ) < aPrev2 0
    ∧ RfreeNow (103/100) (101/100) aPrev2 0 = 101/100
    ∧ aPrev2 1 = 0
    ∧ RfreeNow (103/100) (101/100) aPrev2 1 = 103/100 :=
  ⟨by norm_num [aPrev2],
   (rfree_selection (103/100) (101/100) 1 ones2 aPrev2 ones2 1 ones2 ones2 0).1
     (by norm_num [aPrev2]),
   by norm_num [aPrev2],
   (rfree_selection (103/100) (101/100) 1 ones2 aPrev2 ones2 1 ones2 ones2 1).2.2.1
     (by norm_num [aPrev2])⟩

/-- C10: `ReffNow = RfreeNow / PermShk` has no zero guard in the source;
under the precondition that every `PermShk` entry is nonzero the embedded
transition takes its successful branch (the division-failure branch is
unreachable) and `bNrm` equals the risk-free factor divided by `PermShk`
times the previous `aNrm`, agent by agent. -/
theorem transition_div_safe {n : ℕ} (Rboro Rsave PermShkAggNow : ℚ)
    (pLvl aNrm Rfree : Fin n → ℚ) (PlvlAgg : ℚ) (PermShk TranShk : Fin n → ℚ)
    (h : ∀ i, PermShk i ≠ 0) :
    ∃ out, transition Rboro Rsave PermShkAggNow pLvl aNrm Rfree PlvlAgg PermShk TranShk
        = some out
      ∧ ∀ i, out.bNrmNow i = RfreeNow Rboro Rsave aNrm i / PermShk i * aNrm i := by
  unfold transition
  rw [dif_pos h]
  exact ⟨_, rfl, fun i => rfl⟩

/-- Witness for C10: a concrete one-agent input with `PermShk = 1`. -/
theorem transition_div_safe_witness :
    (∀ i : Fin 1, m1 i ≠ 0)
    ∧ ∃ out, transition (103/100) (101/100) 1 m1 m1 m1 1 m1 m1 = some out
        ∧ ∀ i, out.bNrmNow i = RfreeNow (103/100) (101/100) m1 i / m1 i * m1 i :=
  ⟨by decide, transition_div_safe (103/100) (101/100) 1 m1 m1 m1 1 m1 m1 (by decide)⟩

end ConsPortfolioFrame
